import Mathlib

/-!
A shallow embedding of `src/main.py` of the opcua-mcp repository: the value
coercion engine (`detect_and_convert_value`, `auto_detect_variant`), the lazy
client lifecycle (`get_opcua_client`), and the read/write/browse operations
with their batch variants.  External effects (the OPC UA node store, the
network) are modelled by explicit oracle parameters; Python exceptions are
modelled with `Except`.  Python `int(...)` / `float(...)` parsing is modelled
on the subset of literals without surrounding whitespace or underscore digit
separators; float values are carried as their lexeme since no property here
depends on IEEE semantics.
-/

namespace OpcuaMcp

/-- The subset of `ua.VariantType` named in `detect_and_convert_value`; every
other member of the protocol enumeration (DateTime, Guid, ByteString, ...) is
modelled by `Other` with a distinguishing tag, reaching the function's final
`else` branch. -/
inductive VariantType where
  | Int16 | Int32 | UInt16 | UInt32 | Byte | SByte | Int64 | UInt64
  | Float | Double | Boolean | String
  | Other (tag : Nat)
deriving DecidableEq, Repr

/-- A Python runtime value as it appears in this program: the results of
`int(...)`, `float(...)`, bool expressions and `str(...)`.  A float is carried
as the lexeme that produced it. -/
inductive PyVal where
  | int (v : Int)
  | floatLex (s : String)
  | bool (b : Bool)
  | str (s : String)
deriving DecidableEq, Repr

/-- Model of `ua.Variant(value, variantType)`: the typed value actually written to a
node. -/
structure Variant where
  val : PyVal
  vtype : VariantType
deriving DecidableEq, Repr

/-- Value of a nonempty digit string, most significant digit first. -/
def digitsVal (l : List Char) : Nat :=
  l.foldl (fun a c => a * 10 + (c.toNat - 48)) 0

/-- A nonempty run of ASCII digits. -/
def allDigits (l : List Char) : Bool :=
  !l.isEmpty && l.all Char.isDigit

/-- Model of Python `int(value)` on decimal literals: optional sign followed
by one or more digits; returns `none` where Python raises `ValueError`.
(Python additionally strips surrounding whitespace and allows `_` separators;
such inputs are outside the modelled subset.) -/
def pyParseInt (s : String) : Option Int :=
  match s.toList with
  | '-' :: rest => if allDigits rest then some (-(digitsVal rest : Int)) else none
  | '+' :: rest => if allDigits rest then some (digitsVal rest : Int) else none
  | l => if allDigits l then some (digitsVal l : Int) else none

/-- Digits with an optional leading sign, as in a float exponent. -/
def signedDigits (l : List Char) : Bool :=
  match l with
  | '-' :: r => allDigits r
  | '+' :: r => allDigits r
  | r => allDigits r

/-- Optional exponent part of a Python float literal. -/
def expPart (l : List Char) : Bool :=
  match l with
  | [] => true
  | 'e' :: r => signedDigits r
  | 'E' :: r => signedDigits r
  | _ => false

/-- Mantissa-and-exponent of a Python float literal, after the optional
sign: `digits [. digits] [exp]` or `. digits [exp]`. -/
def floatBody (l : List Char) : Bool :=
  let d1 := l.takeWhile Char.isDigit
  let r1 := l.dropWhile Char.isDigit
  match r1 with
  | '.' :: r2 =>
    let d2 := r2.takeWhile Char.isDigit
    let r3 := r2.dropWhile Char.isDigit
    (!d1.isEmpty || !d2.isEmpty) && expPart r3
  | _ => !d1.isEmpty && expPart r1

/-- Model of Python `float(value)` acceptance on decimal literals (again
minus surrounding whitespace, underscores and the inf/nan words): `true`
exactly where `float(value)` succeeds. -/
def pyFloatOk (s : String) : Bool :=
  match s.toList with
  | '-' :: r => floatBody r
  | '+' :: r => floatBody r
  | r => floatBody r

/-- ASCII lowercase of one character (the fragment of Python `str.lower()`
the modelled literals exercise). -/
def charLower (c : Char) : Char :=
  if 65 ≤ c.toNat ∧ c.toNat ≤ 90 then Char.ofNat (c.toNat + 32) else c

/-- Model of `value.lower()` on ASCII text. -/
def strLower (s : String) : String :=
  String.mk (s.toList.map charLower)

/-- The test `value.lower() in ('true', 'false', 'on', 'off', 'yes', 'no')` — the
boolean recognition test of `auto_detect_variant` (src/main.py line 101). -/
def boolRecognized (value : String) : Bool :=
  ["true", "false", "on", "off", "yes", "no"].contains (strLower value)

/-- The test `value.lower() in ('true', '1', 'on', 'yes')` — the truth set shared by
the boolean branch of `detect_and_convert_value` (line 85) and
`auto_detect_variant` (line 102). -/
def boolTruth (value : String) : Bool :=
  ["true", "1", "on", "yes"].contains (strLower value)

/-- Model of `auto_detect_variant` (src/main.py lines 98-126): boolean words first,
then integer with width chosen by range, then float, else string. -/
def auto_detect_variant (value : String) : Variant :=
  if boolRecognized value then
    { val := .bool (boolTruth value), vtype := .Boolean }
  else
    match pyParseInt value with
    | some int_value =>
      if -32768 ≤ int_value ∧ int_value ≤ 32767 then
        { val := .int int_value, vtype := .Int16 }
      else if -2147483648 ≤ int_value ∧ int_value ≤ 2147483647 then
        { val := .int int_value, vtype := .Int32 }
      else
        { val := .int int_value, vtype := .Int64 }
    | none =>
      if pyFloatOk value then
        { val := .floatLex value, vtype := .Float }
      else
        { val := .str value, vtype := .String }

/-- One integer-typed branch of `detect_and_convert_value`:
`return ua.Variant(int(value), t)`, where a `ValueError` from `int(value)`
escapes to the function's outer `except` and falls back to
`auto_detect_variant`. -/
def convertIntBranch (value : String) (t : VariantType) : Variant :=
  match pyParseInt value with
  | some i => { val := .int i, vtype := t }
  | none => auto_detect_variant value

/-- One float-typed branch of `detect_and_convert_value`:
`return ua.Variant(float(value), t)` with the same fallback on
`ValueError`. -/
def convertFloatBranch (value : String) (t : VariantType) : Variant :=
  if pyFloatOk value then { val := .floatLex value, vtype := t }
  else auto_detect_variant value

/-- Model of `detect_and_convert_value` (src/main.py lines 51-96).  The first argument
is the outcome of `node.get_data_value().Value.VariantType`: `Except.error`
models any exception while retrieving the declared type (caught by the
function's `except`, which falls back to auto-detection).  The dispatch on
the declared type and the fallback on conversion errors follow the source
branch for branch; the function is total, mirroring the catch-all `except`
that keeps any internal failure from escaping to the caller. -/
def detect_and_convert_value (declaredType : Except String VariantType)
    (value : String) : Variant :=
  match declaredType with
  | .error _ => auto_detect_variant value
  | .ok current_variant_type =>
    match current_variant_type with
    | .Int16 => convertIntBranch value .Int16
    | .Int32 => convertIntBranch value .Int32
    | .UInt16 => convertIntBranch value .UInt16
    | .UInt32 => convertIntBranch value .UInt32
    | .Byte => convertIntBranch value .Byte
    | .SByte => convertIntBranch value .SByte
    | .Int64 => convertIntBranch value .Int64
    | .UInt64 => convertIntBranch value .UInt64
    | .Float => convertFloatBranch value .Float
    | .Double => convertFloatBranch value .Double
    | .Boolean => { val := .bool (boolTruth value), vtype := .Boolean }
    | .String => { val := .str value, vtype := .String }
    | .Other _ => auto_detect_variant value

/-- The declared-type parse that each branch of `detect_and_convert_value`
attempts: integer widths use `int(value)`, float widths use `float(value)`,
boolean and string conversions never fail, and an unrecognised variant type
has no typed parse at all. -/
def typedParseOk (t : VariantType) (value : String) : Bool :=
  match t with
  | .Int16 | .Int32 | .UInt16 | .UInt32 | .Byte | .SByte | .Int64 | .UInt64 =>
    (pyParseInt value).isSome
  | .Float | .Double => pyFloatOk value
  | .Boolean | .String => true
  | .Other _ => false

/-- The hinted pathway of `detect_and_convert_value` fails — the declared
type could not be retrieved, or its typed parse of the value fails (which
includes every unsupported declared type). -/
def typedPathFails (declaredType : Except String VariantType)
    (value : String) : Bool :=
  match declaredType with
  | .error _ => true
  | .ok t => !(typedParseOk t value)

/-- The process-wide `Client` object of python-opcua as this program uses
it: an identity (which construction of `Client(server_url)` produced it) and
whether `connect()` has succeeded on it. -/
structure OpcuaClient where
  id : Nat
  connected : Bool
deriving DecidableEq, Repr

/-- The module-level mutable state around `_opcua_client` (src/main.py line
16), together with instrumentation that the source's effects determine: a
counter distinguishing successive `Client(...)` constructions and a count of
underlying `connect()` invocations. -/
structure ClientGlobals where
  opcua_client : Option OpcuaClient
  nextClientId : Nat
  connectCalls : Nat
deriving DecidableEq, Repr

/-- Model of `get_opcua_client` (src/main.py lines 18-37).  `connectOk` is the outcome
the network gives the `connect()` call, should one happen.  Faithful to the
source order: the global is assigned the fresh `Client` BEFORE `connect()`
runs, so when `connect()` raises, the exception propagates while the global
keeps pointing at the never-connected client. -/
def get_opcua_client (connectOk : Bool) (g : ClientGlobals) :
    ClientGlobals × Except String OpcuaClient :=
  match g.opcua_client with
  | some c => (g, .ok c)
  | none =>
    let fresh : OpcuaClient := { id := g.nextClientId, connected := false }
    if connectOk then
      let connectedClient : OpcuaClient := { fresh with connected := true }
      ({ opcua_client := some connectedClient, nextClientId := g.nextClientId + 1,
         connectCalls := g.connectCalls + 1 }, .ok connectedClient)
    else
      ({ opcua_client := some fresh, nextClientId := g.nextClientId + 1,
         connectCalls := g.connectCalls + 1 }, .error "ConnectionError")

/-- Insertion into a Python `dict` viewed as an ordered association list:
an existing key keeps its position and gets the new value, a new key is
appended. -/
def pyDictInsert (d : List (String × PyVal)) (k : String) (v : PyVal) :
    List (String × PyVal) :=
  if d.any (fun p => p.1 == k) then
    d.map (fun p => if p.1 == k then (k, v) else p)
  else
    d ++ [(k, v)]

/-- The per-node value computed by the loop of `read_multiple_opcua_nodes`
(src/main.py lines 247-252): the read value on success, the formatted error
string on a per-node exception.  `store` is the node store: what
`node.get_value()` returns or raises for each node id.  Node-id
canonicalisation by `node.nodeid.to_string()` is modelled as the identity on
the caller's id string. -/
def readManyEntry (store : String → Except String PyVal) (nid : String) : PyVal :=
  match store nid with
  | .ok v => v
  | .error e => .str ("Error reading node " ++ nid ++ ": " ++ e)

/-- Model of `read_multiple_opcua_nodes` (src/main.py lines 241-257): per-node values
are collected in input order, then the result dict is built by
`{node.nodeid.to_string(): value for node, value in zip(nodes_to_read, values)}`
— a dict comprehension, so repeated ids collapse to one entry. -/
def read_multiple_opcua_nodes (store : String → Except String PyVal)
    (node_ids : List String) : List (String × PyVal) :=
  let values := node_ids.map (readManyEntry store)
  (node_ids.zip values).foldl (fun d kv => pyDictInsert d kv.1 kv.2) []

/-- One child as the node store hands it to `browse_opcua_node_children`:
its node id string (`child.nodeid.to_string()`) and the outcome of
`child.get_browse_name()` — namespace index and name, or the exception
raised. -/
structure ChildNode where
  nodeIdStr : String
  browseName : Except String (Nat × String)
deriving Repr

/-- One entry of the `children_info` list. -/
structure ChildInfo where
  node_id : String
  browse_name : String
deriving DecidableEq, Repr

/-- The body of the per-child loop of `browse_opcua_node_children`
(src/main.py lines 212-223): on success the entry is
`ns:name`; when `get_browse_name()` raises, the entry still appears, with
the placeholder `Error getting name: {e}`. -/
def childEntry (c : ChildNode) : ChildInfo :=
  match c.browseName with
  | .ok (ns, name) => { node_id := c.nodeIdStr, browse_name := toString ns ++ ":" ++ name }
  | .error e => { node_id := c.nodeIdStr, browse_name := "Error getting name: " ++ e }

/-- Model of `browse_opcua_node_children` (src/main.py lines 206-225), given the
enumerated children of the resolved node. -/
def browse_opcua_node_children (children : List ChildNode) : List ChildInfo :=
  children.map childEntry

/-- The node store as `write_multiple_opcua_nodes` touches it, one oracle per
network call of the per-item body: `resolve` is `client.get_node` (raises
for an unresolvable id), `declared` is the `node.get_data_value()` type
lookup consumed inside `detect_and_convert_value`, `writeNode` is
`node.set_data_value`, `verify` is the verification `node.get_value()`.
Error strings model the Python rendering `{type(e).__name__}: {e}` of the
raised exception. -/
structure WEnv where
  resolve : String → Except String Unit
  declared : String → Except String VariantType
  writeNode : String → Variant → Except String Unit
  verify : String → Except String PyVal

/-- One element of `nodes_to_write`: a Python dict that may lack the
`node_id` or `value` key; the caller's value is modelled already stringified
(the body only ever uses `str(item['value'])`). -/
structure WItem where
  node_id : Option String
  value : Option String
deriving DecidableEq, Repr

/-- One element of `status_report` (src/main.py lines 296-307): the error
variant carries no `verified_value` key. -/
structure StatusRecord where
  node_id : String
  value_written : String
  verified_value : Option PyVal
  status : String
deriving DecidableEq, Repr

/-- What `write_multiple_opcua_nodes` returns: the status report, or the
single error string of the outer `except` (which discards every record
collected so far). -/
inductive WMOutcome where
  | results (status_report : List StatusRecord)
  | aborted (msg : String)
deriving DecidableEq, Repr

/-- The `try` body of the per-item loop of `write_multiple_opcua_nodes`
(src/main.py lines 283-301), in source order: `item['node_id']` access,
`client.get_node`, `item['value']` access, coercion, write, verification
read.  A missing dict key models Python's `KeyError`. -/
def write_item_body (env : WEnv) (item : WItem) : Except String StatusRecord :=
  match item.node_id with
  | none => .error "KeyError: node_id"
  | some nid =>
    match env.resolve nid with
    | .error e => .error e
    | .ok _ =>
      match item.value with
      | none => .error "KeyError: value"
      | some v =>
        match env.writeNode nid (detect_and_convert_value (env.declared nid) v) with
        | .error e => .error e
        | .ok _ =>
          match env.verify nid with
          | .error e => .error e
          | .ok new_value =>
            .ok { node_id := nid, value_written := v,
                  verified_value := some new_value, status := "Success" }

/-- One loop iteration with its `except` handler (src/main.py lines
302-307): the handler rebuilds the failure record from `item['node_id']` and
`item['value']`, so when either key is missing the handler itself raises a
`KeyError`, which escapes the per-item isolation. -/
def write_item (env : WEnv) (item : WItem) : Except String StatusRecord :=
  match write_item_body env item with
  | .ok r => .ok r
  | .error e =>
    match item.node_id with
    | none => .error "KeyError: node_id"
    | some nid =>
      match item.value with
      | none => .error "KeyError: value"
      | some v =>
        .ok { node_id := nid, value_written := v, verified_value := none,
              status := "Error: " ++ e }

/-- The loop of `write_multiple_opcua_nodes` under the outer `try`: an
exception escaping an iteration reaches the outer `except` (src/main.py
lines 311-312), which turns the whole call into one error string. -/
def write_multiple_loop (env : WEnv) :
    List WItem → List StatusRecord → WMOutcome
  | [], status_report => .results status_report
  | item :: rest, status_report =>
    match write_item env item with
    | .ok r => write_multiple_loop env rest (status_report ++ [r])
    | .error e => .aborted ("Error writing multiple nodes: " ++ e)

/-- Model of `write_multiple_opcua_nodes` (src/main.py lines 277-312), given the node
store oracles.  Acquisition of the already-connected client is outside this
model. -/
def write_multiple_opcua_nodes (env : WEnv) (nodes_to_write : List WItem) :
    WMOutcome :=
  write_multiple_loop env nodes_to_write []

/-! ## Supporting lemmas -/

theorem convertIntBranch_vtype (v : String) (t : VariantType)
    (h : (pyParseInt v).isSome = true) : (convertIntBranch v t).vtype = t := by
  cases hp : pyParseInt v with
  | some i => simp [convertIntBranch, hp]
  | none => rw [hp] at h; simp at h

theorem convertFloatBranch_vtype (v : String) (t : VariantType)
    (h : pyFloatOk v = true) : (convertFloatBranch v t).vtype = t := by
  simp [convertFloatBranch, h]

/-! ## Claim theorems -/

/-- C3 (amended): whenever the node's declared wire type was retrieved
successfully, is one of the types `detect_and_convert_value` dispatches on,
and the value parses under that type, the produced variant carries exactly
the declared type.  (When the declared type could not be retrieved, is
unsupported, or the typed parse fails, the type is instead inferred from the
value's lexical shape — see the C4 theorem.) -/
theorem detect_and_convert_preserves_declared_type (t : VariantType) (v : String)
    (h : typedParseOk t v = true) :
    (detect_and_convert_value (Except.ok t) v).vtype = t := by
  cases t with
  | Int16 | Int32 | UInt16 | UInt32 | Byte | SByte | Int64 | UInt64 =>
    exact convertIntBranch_vtype v _ h
  | Float | Double =>
    exact convertFloatBranch_vtype v _ h
  | Boolean => rfl
  | String => rfl
  | Other tag => simp [typedParseOk] at h

/-- C3 witness: a node declared `Int16` receiving the value `"7"` keeps the
declared type. -/
theorem detect_and_convert_preserves_declared_type_witness :
    (detect_and_convert_value (Except.ok VariantType.Int16) "7").vtype =
      VariantType.Int16 :=
  detect_and_convert_preserves_declared_type VariantType.Int16 "7" (by decide)

/-- C3 counterexample to the claim as stated: for a node whose declared wire
type WAS determined (successfully retrieved as `Int16`) but whose value
`"hello"` fails the integer parse, the produced variant carries the
lexically inferred type `String`, not the declared `Int16` — the conversion
error also routes through auto-detection, not only an undetermined declared
type. -/
theorem detect_and_convert_declared_type_not_preserved_on_parse_failure :
    (detect_and_convert_value (Except.ok VariantType.Int16) "hello").vtype =
      VariantType.String ∧
    VariantType.String ≠ VariantType.Int16 := by
  constructor
  · decide
  · decide

/-- C4: `detect_and_convert_value` is total by construction (it is a plain
function, mirroring the catch-all `except` of src/main.py line 94), and on
every internal failure of the hinted pathway — declared type unretrievable,
declared type unsupported, or the typed parse failing on the value — it
returns exactly the result of auto-detection on the raw string. -/
theorem detect_and_convert_falls_back_to_auto_detect
    (d : Except String VariantType) (v : String)
    (h : typedPathFails d v = true) :
    detect_and_convert_value d v = auto_detect_variant v := by
  cases d with
  | error e => rfl
  | ok t =>
    have ht : typedParseOk t v = false := by
      simpa [typedPathFails] using h
    cases t with
    | Int16 | Int32 | UInt16 | UInt32 | Byte | SByte | Int64 | UInt64 =>
      cases hp : pyParseInt v with
      | some i => simp [typedParseOk, hp] at ht
      | none => simp [detect_and_convert_value, convertIntBranch, hp]
    | Float | Double =>
      have hf : pyFloatOk v = false := ht
      simp [detect_and_convert_value, convertFloatBranch, hf]
    | Boolean => simp [typedParseOk] at ht
    | String => simp [typedParseOk] at ht
    | Other tag => rfl

/-- C4 witness: an `Int16`-typed node receiving the non-numeric `"hello"`
yields the auto-detected variant instead of an error. -/
theorem detect_and_convert_falls_back_witness :
    detect_and_convert_value (Except.ok VariantType.Int16) "hello" =
      auto_detect_variant "hello" :=
  detect_and_convert_falls_back_to_auto_detect
    (Except.ok VariantType.Int16) "hello" (by decide)

/-- C5: a string parsing as integer `v` and not recognised as a boolean word
is tagged with the narrowest signed width of the source's range chain:
16-bit on `[-32768, 32767]`, 32-bit on the rest of
`[-2147483648, 2147483647]`, 64-bit beyond. -/
theorem auto_detect_integer_width (s : String) (v : Int)
    (h1 : pyParseInt s = some v) (h2 : boolRecognized s = false) :
    ((-32768 ≤ v ∧ v ≤ 32767) →
      (auto_detect_variant s).vtype = VariantType.Int16) ∧
    ((32768 ≤ v ∧ v ≤ 2147483647 ∨ -2147483648 ≤ v ∧ v < -32768) →
      (auto_detect_variant s).vtype = VariantType.Int32) ∧
    ((2147483647 < v ∨ v < -2147483648) →
      (auto_detect_variant s).vtype = VariantType.Int64) := by
  refine ⟨fun hc => ?_, fun hc => ?_, fun hc => ?_⟩
  · simp [auto_detect_variant, h2, h1, hc]
  · have hn : ¬(-32768 ≤ v ∧ v ≤ 32767) := by omega
    have h32 : -2147483648 ≤ v ∧ v ≤ 2147483647 := by omega
    simp [auto_detect_variant, h2, h1, hn, h32]
  · have hn : ¬(-32768 ≤ v ∧ v ≤ 32767) := by omega
    have hn2 : ¬(-2147483648 ≤ v ∧ v ≤ 2147483647) := by omega
    simp [auto_detect_variant, h2, h1, hn, hn2]

/-- C5 witness at the spec's boundary pair: 32767 is tagged 16-bit, 32768 is
tagged 32-bit. -/
theorem auto_detect_integer_width_witness :
    (auto_detect_variant "32767").vtype = VariantType.Int16 ∧
    (auto_detect_variant "32768").vtype = VariantType.Int32 := by
  constructor
  · exact (auto_detect_integer_width "32767" 32767 (by decide) (by decide)).1
      (by decide)
  · exact (auto_detect_integer_width "32768" 32768 (by decide) (by decide)).2.1
      (by decide)

/-- C8: every value recognised as a boolean word (`true/false/on/off/yes/no`,
case-insensitive) auto-detects to a Boolean variant that is true exactly when
its lowercase form is in `{true, 1, on, yes}`; under an explicit Boolean
declared type, every string coerces to a Boolean variant with the same truth
set, everything outside it treated as false. -/
theorem boolean_coercion_truth_set (s : String) :
    (boolRecognized s = true →
      auto_detect_variant s =
        { val := PyVal.bool (boolTruth s), vtype := VariantType.Boolean }) ∧
    detect_and_convert_value (Except.ok VariantType.Boolean) s =
      { val := PyVal.bool (boolTruth s), vtype := VariantType.Boolean } := by
  constructor
  · intro h; simp [auto_detect_variant, h]
  · rfl

/-- C8 witness: `"YES"` auto-detects to Boolean true; under a Boolean type
hint, `"off"` coerces to Boolean false. -/
theorem boolean_coercion_truth_set_witness :
    auto_detect_variant "YES" =
      { val := PyVal.bool true, vtype := VariantType.Boolean } ∧
    detect_and_convert_value (Except.ok VariantType.Boolean) "off" =
      { val := PyVal.bool false, vtype := VariantType.Boolean } := by
  constructor
  · exact (boolean_coercion_truth_set "YES").1 (by decide)
  · exact (boolean_coercion_truth_set "off").2

/-- C6: starting from a cleared global (`_opcua_client is None`), a first
call to `get_opcua_client` whose underlying connect succeeds returns a
client, bumps the connect count by exactly one, and every subsequent call
without an intervening cleanup returns the very same client with the global
state untouched — in particular without a second connect. -/
theorem get_opcua_client_idempotent (g : ClientGlobals)
    (h : g.opcua_client = none) :
    ∃ c : OpcuaClient,
      (get_opcua_client true g).2 = Except.ok c ∧
      (get_opcua_client true g).1.connectCalls = g.connectCalls + 1 ∧
      ∀ ok2 : Bool, get_opcua_client ok2 (get_opcua_client true g).1 =
        ((get_opcua_client true g).1, Except.ok c) := by
  have hg : get_opcua_client true g =
      ({ opcua_client := some { id := g.nextClientId, connected := true },
         nextClientId := g.nextClientId + 1,
         connectCalls := g.connectCalls + 1 },
       Except.ok { id := g.nextClientId, connected := true }) := by
    simp [get_opcua_client, h]
  refine ⟨{ id := g.nextClientId, connected := true }, ?_, ?_, ?_⟩
  · rw [hg]
  · rw [hg]
  · intro ok2
    rw [hg]
    rfl

/-- C6 witness: from the initial module state, two acquisitions yield the
same client and the state after the first call is already final. -/
theorem get_opcua_client_idempotent_witness :
    get_opcua_client false (get_opcua_client true ⟨none, 0, 0⟩).1 =
      ((get_opcua_client true ⟨none, 0, 0⟩).1,
        Except.ok { id := 0, connected := true }) := by
  obtain ⟨c, h1, _, h3⟩ := get_opcua_client_idempotent ⟨none, 0, 0⟩ rfl
  have h1e : (get_opcua_client true (⟨none, 0, 0⟩ : ClientGlobals)).2 =
      Except.ok { id := 0, connected := true } := rfl
  rw [h1] at h1e
  rw [← Except.ok.inj h1e]
  exact h3 false

/-- C2: evaluated at the failing input (cleared global, underlying connect
raises), `get_opcua_client` leaves the global pointing at the
never-connected client instead of clearing it, and the next call returns
that client unchanged, without attempting a fresh connect (the connect count
stays at one).  The claim — and the source's own retriable-adapter intent,
which `cleanup_client` honours by clearing the reference in its `finally` —
requires the reference to be cleared; the code assigns the global before
`connect()` and has no handler to undo it. -/
theorem failed_connect_leaves_stale_client :
    (get_opcua_client false ⟨none, 0, 0⟩).1.opcua_client =
      some { id := 0, connected := false } ∧
    (get_opcua_client false ⟨none, 0, 0⟩).2 = Except.error "ConnectionError" ∧
    get_opcua_client true (get_opcua_client false ⟨none, 0, 0⟩).1 =
      ((get_opcua_client false ⟨none, 0, 0⟩).1,
        Except.ok { id := 0, connected := false }) ∧
    (get_opcua_client true (get_opcua_client false ⟨none, 0, 0⟩).1).1.connectCalls = 1 :=
  ⟨rfl, rfl, rfl, rfl⟩

/-- C9: browsing pairs every enumerated child with exactly one output entry,
in order (`Forall₂` forces equal length and order); the entry always carries
the child's node id, and a child whose display-name retrieval failed is
still present, carrying the placeholder with the retrieval error. -/
theorem browse_children_complete (cs : List ChildNode) :
    List.Forall₂ (fun c info =>
      info.node_id = c.nodeIdStr ∧
      ∀ e, c.browseName = Except.error e →
        info.browse_name = "Error getting name: " ++ e)
      cs (browse_opcua_node_children cs) := by
  induction cs with
  | nil => exact List.Forall₂.nil
  | cons c rest ih =>
    refine List.Forall₂.cons ⟨?_, ?_⟩ ih
    · cases hb : c.browseName <;> simp [childEntry, hb]
    · intro e he
      simp [childEntry, he]

/-- C9 witness: a single child with a failing display-name lookup still
produces one entry. -/
theorem browse_children_complete_witness :
    (browse_opcua_node_children [⟨"ns=2;i=9", Except.error "timeout"⟩]).length = 1 := by
  have h := browse_children_complete [⟨"ns=2;i=9", Except.error "timeout"⟩]
  simpa using h.length_eq.symm

/-- Inserting a key not yet present in the dict appends it. -/
theorem pyDictInsert_fresh (d : List (String × PyVal)) (k : String) (v : PyVal)
    (h : ∀ p ∈ d, p.1 ≠ k) : pyDictInsert d k v = d ++ [(k, v)] := by
  have hany : (d.any (fun p => p.1 == k)) = false := by
    rw [List.any_eq_false]
    intro p hp
    simpa using h p hp
  simp [pyDictInsert, hany]

/-- The dict-building fold of `read_multiple_opcua_nodes`, on ids without
repetition, appends one entry per id in order. -/
theorem readMany_fold (store : String → Except String PyVal) (ids : List String) :
    ∀ acc : List (String × PyVal), ids.Nodup →
      (∀ nid ∈ ids, ∀ p ∈ acc, p.1 ≠ nid) →
      (ids.zip (ids.map (readManyEntry store))).foldl
        (fun d kv => pyDictInsert d kv.1 kv.2) acc =
        acc ++ ids.map (fun nid => (nid, readManyEntry store nid)) := by
  induction ids with
  | nil => intro acc _ _; simp
  | cons nid rest ih =>
    intro acc hnd hfresh
    have hzip : ((nid :: rest).zip ((nid :: rest).map (readManyEntry store))) =
        (nid, readManyEntry store nid) :: rest.zip (rest.map (readManyEntry store)) := rfl
    rw [hzip]
    simp only [List.foldl_cons]
    rw [pyDictInsert_fresh acc nid _ (fun p hp => hfresh nid (by simp) p hp)]
    rw [ih (acc ++ [(nid, readManyEntry store nid)]) (List.Nodup.of_cons hnd) ?fresh]
    · simp
    case fresh =>
      intro m hm p hp
      rcases List.mem_append.1 hp with hpa | hps
      · exact hfresh m (by simp [hm]) p hpa
      · have hp1 : p.1 = nid := by
          simp at hps
          rw [hps]
        rw [hp1]
        intro hcontra
        exact (List.nodup_cons.1 hnd).1 (hcontra ▸ hm)

/-- C1 (amended): on a list of pairwise-distinct node ids,
`read_multiple_opcua_nodes` returns exactly one result per input id, in
input order, and a failing id contributes its own error entry (the
`Error reading node ...` string) without removing or reordering the other
ids' results.  On repeated ids the claim fails: the result dict collapses
them (see the counterexample). -/
theorem read_multiple_nodup_one_result_per_id
    (store : String → Except String PyVal) (node_ids : List String)
    (h : node_ids.Nodup) :
    read_multiple_opcua_nodes store node_ids =
      node_ids.map (fun nid => (nid, readManyEntry store nid)) ∧
    ∀ nid e, store nid = Except.error e →
      readManyEntry store nid = PyVal.str ("Error reading node " ++ nid ++ ": " ++ e) := by
  constructor
  · unfold read_multiple_opcua_nodes
    simpa using readMany_fold store node_ids [] h (by simp)
  · intro nid e he
    simp [readManyEntry, he]

/-- A node store for the C1 witness: `ns=2;i=2` reads 42, everything else
raises. -/
def storeC1 : String → Except String PyVal := fun nid =>
  if nid == "ns=2;i=2" then Except.ok (PyVal.int 42)
  else Except.error "BadNodeIdUnknown"

/-- C1 witness: two distinct ids, the second failing, give two ordered
entries with the failure captured in place. -/
theorem read_multiple_nodup_one_result_per_id_witness :
    read_multiple_opcua_nodes storeC1 ["ns=2;i=2", "ns=2;i=3"] =
      [("ns=2;i=2", PyVal.int 42),
       ("ns=2;i=3", PyVal.str "Error reading node ns=2;i=3: BadNodeIdUnknown")] := by
  have h := (read_multiple_nodup_one_result_per_id storeC1
      ["ns=2;i=2", "ns=2;i=3"] (by decide)).1
  rw [h]
  rfl

/-- C1 counterexample to the claim as stated: a repeated id yields ONE dict
entry, not one entry per input position — the dict comprehension of
src/main.py line 255 deduplicates repeated ids. -/
theorem read_multiple_deduplicates_repeated_ids :
    (read_multiple_opcua_nodes (fun _ => Except.ok (PyVal.int 1))
        ["ns=2;i=2", "ns=2;i=2"]).length = 1 ∧
    (["ns=2;i=2", "ns=2;i=2"] : List String).length = 2 := by
  constructor
  · rfl
  · rfl

/-- C7: a two-item batch whose first item writes (and verifies) successfully
and whose second item's node resolution raises returns exactly two status
records in input order — the first `Success` with the verified value, the
second the `Error: ...` failure record; the bad item neither drops nor
reorders the good item's record. -/
theorem write_many_isolates_bad_item (env : WEnv) (a b va vb e : String)
    (w : PyVal)
    (hra : env.resolve a = Except.ok ())
    (hwa : env.writeNode a (detect_and_convert_value (env.declared a) va) =
      Except.ok ())
    (hva : env.verify a = Except.ok w)
    (hrb : env.resolve b = Except.error e) :
    write_multiple_opcua_nodes env
      [{ node_id := some a, value := some va },
       { node_id := some b, value := some vb }] =
      WMOutcome.results
        [{ node_id := a, value_written := va, verified_value := some w,
           status := "Success" },
         { node_id := b, value_written := vb, verified_value := none,
           status := "Error: " ++ e }] := by
  simp [write_multiple_opcua_nodes, write_multiple_loop, write_item,
        write_item_body, hra, hwa, hva, hrb]

/-- A node store for the C7 and C10 witnesses: only `ns=2;i=2` resolves;
all nodes declare `Int16`, writes succeed and verification reads 10. -/
def envGood : WEnv where
  resolve := fun nid =>
    if nid == "ns=2;i=2" then Except.ok () else Except.error "BadNodeIdUnknown"
  declared := fun _ => Except.ok VariantType.Int16
  writeNode := fun _ _ => Except.ok ()
  verify := fun _ => Except.ok (PyVal.int 10)

/-- C7 witness: the spec's own scenario, `[{id: A, value: "10"},
{id: BAD, value: "x"}]` with `BAD` unresolvable. -/
theorem write_many_isolates_bad_item_witness :
    write_multiple_opcua_nodes envGood
      [{ node_id := some "ns=2;i=2", value := some "10" },
       { node_id := some "ns=9;i=9", value := some "x" }] =
      WMOutcome.results
        [{ node_id := "ns=2;i=2", value_written := "10",
           verified_value := some (PyVal.int 10), status := "Success" },
         { node_id := "ns=9;i=9", value_written := "x", verified_value := none,
           status := "Error: " ++ "BadNodeIdUnknown" }] :=
  write_many_isolates_bad_item envGood "ns=2;i=2" "ns=9;i=9" "10" "x"
    "BadNodeIdUnknown" (PyVal.int 10) rfl rfl rfl rfl

/-- An item lacking the `node_id` or the `value` key makes `write_item`
raise a `KeyError` out of its own `except` handler, whatever the node store
does. -/
theorem write_item_missing_key (env : WEnv) (item : WItem)
    (h : item.node_id = none ∨ item.value = none) :
    write_item env item =
      Except.error
        (if item.node_id = none then "KeyError: node_id" else "KeyError: value") := by
  rcases hnid : item.node_id with _ | nid
  · simp [write_item, write_item_body, hnid]
  · have hv : item.value = none := by
      rcases h with h | h
      · rw [hnid] at h
        exact absurd h (by simp)
      · exact h
    cases hr : env.resolve nid with
    | ok u => simp [write_item, write_item_body, hnid, hv, hr]
    | error er => simp [write_item, write_item_body, hnid, hv, hr]

/-- An erroring iteration inside the loop aborts it into the outer handler's
single message, discarding every record accumulated so far. -/
theorem write_multiple_loop_aborts (env : WEnv) (item : WItem)
    (post : List WItem) (m : String)
    (hitem : write_item env item = Except.error m) :
    ∀ (pre : List WItem) (acc : List StatusRecord),
      (∀ i ∈ pre, ∃ r, write_item env i = Except.ok r) →
      write_multiple_loop env (pre ++ item :: post) acc =
        WMOutcome.aborted ("Error writing multiple nodes: " ++ m) := by
  intro pre
  induction pre with
  | nil => intro acc _; simp [write_multiple_loop, hitem]
  | cons i rest ih =>
    intro acc hok
    obtain ⟨r, hr⟩ := hok i (by simp)
    simp only [List.cons_append, write_multiple_loop, hr]
    exact ih _ (fun j hj => hok j (by simp [hj]))

/-- C10: when any item dict lacks the `node_id` or `value` key, the per-item
`except` handler of `write_multiple_opcua_nodes` raises a `KeyError` while
rebuilding the failure record, so the outer handler turns the whole batch
into a single error string — all previously collected status records are
discarded. -/
theorem write_many_missing_key_aborts_batch (env : WEnv)
    (pre post : List WItem) (item : WItem)
    (hpre : ∀ i ∈ pre, ∃ r, write_item env i = Except.ok r)
    (hbad : item.node_id = none ∨ item.value = none) :
    write_multiple_opcua_nodes env (pre ++ item :: post) =
      WMOutcome.aborted ("Error writing multiple nodes: " ++
        (if item.node_id = none then "KeyError: node_id" else "KeyError: value")) :=
  write_multiple_loop_aborts env item post _
    (write_item_missing_key env item hbad) pre [] hpre

/-- C10 witness: one good item followed by an item without `node_id`; the
good item's record is discarded and the batch collapses to one error
string. -/
theorem write_many_missing_key_aborts_batch_witness :
    write_multiple_opcua_nodes envGood
      [{ node_id := some "ns=2;i=2", value := some "10" },
       { node_id := none, value := some "5" }] =
      WMOutcome.aborted "Error writing multiple nodes: KeyError: node_id" := by
  have h := write_many_missing_key_aborts_batch envGood
      [{ node_id := some "ns=2;i=2", value := some "10" }] []
      { node_id := none, value := some "5" }
      (by
        intro i hi
        simp at hi
        subst hi
        exact ⟨_, rfl⟩)
      (Or.inl rfl)
  simpa using h

end OpcuaMcp
